import Mathlib

/-!
Shallow embedding of `src/integrate_detector_signal.py`.

The source is a single Python function `integrate_detector_signal(time, signal,
plot, arrival_time_guess, signal_width_guess, background_guess)` built on numpy,
`scipy.optimize.curve_fit` and `scipy.integrate.simps`.  We embed it as follows:

* a sample value is a `Val := Option ℚ`, where `none` models IEEE NaN and
  `some q` a finite float, read at exact rational precision;
* the bounded nonlinear least-squares solver (`curve_fit`) and the quadrature
  primitive (`simps`) are out of scope per the spec (section 1) and are taken
  as abstract deterministic function parameters `CurveFit` and `Integ`;
* numpy reductions over empty slices (`np.mean([])`, `np.std([])`) yield NaN,
  which then poisons every value computed from them; the spec (section 7) names
  these failure modes `InsufficientBackgroundError` and
  `DegenerateNoiseRegionError`, and we model them as `Except` errors raised at
  the line where the NaN first arises.  Likewise inputs of unequal length make
  the elementwise mask arithmetic of line 43 fail inside numpy before anything
  is computed; the spec names that failure `InputShapeError`.
* the two square roots (`np.std`, `np.sqrt`) and the final Euclidean norm live
  in `ℝ`; everything below them is computable rational arithmetic.
-/

namespace IDS

/-- Error taxonomy of section 7 of the spec: the four failure modes the
pipeline can surface to the caller. -/
inductive Err where
  | InputShapeError
  | FitConvergenceError
  | InsufficientBackgroundError
  | DegenerateNoiseRegionError
  deriving DecidableEq, Repr

/-- A detector sample value: `none` models IEEE NaN (an undefined reading),
`some q` an ordinary finite value at exact rational precision. -/
abbrev Val := Option ℚ

deriving instance DecidableEq for Except

unseal Rat.mul Rat.inv Rat.add Rat.sub Rat.ofScientific

/-- Model of `np.min` on a nonempty array.  numpy raises on an empty array;
every use in the source is guarded by the data being nonempty, and we return
the junk value 0 there. -/
def npMin : List ℚ → ℚ
  | [] => 0
  | x :: xs => xs.foldl min x

/-- Model of `np.max` on a nonempty array, with junk value 0 on the empty
array (numpy raises there; all uses in the source are on nonempty data). -/
def npMax : List ℚ → ℚ
  | [] => 0
  | x :: xs => xs.foldl max x

/-- Model of `np.mean`: sum divided by length.  On the empty list numpy
returns NaN; here the rational division by zero returns 0, and the pipeline
guards the one place (line 52) where the empty case matters. -/
def npMean (xs : List ℚ) : ℚ := xs.sum / xs.length

/-- The population variance, the square of `np.std` (numpy default ddof = 0):
mean of the squared deviations from the mean. -/
def npVar (xs : List ℚ) : ℚ := npMean (xs.map fun x => (x - npMean xs) ^ 2)

/-- Model of `np.diff`: consecutive differences `xs[i+1] - xs[i]`. -/
def npDiff (xs : List ℚ) : List ℚ := List.zipWith (fun a b => a - b) xs.tail xs

/-- Insertion of an element into a sorted list, the step of `sortQ`. -/
def insertSorted (x : ℚ) : List ℚ → List ℚ
  | [] => [x]
  | y :: ys => if x ≤ y then x :: y :: ys else y :: insertSorted x ys

/-- Ascending insertion sort on rationals, modelling the sort inside
`np.median`. -/
def sortQ (xs : List ℚ) : List ℚ := xs.foldr insertSorted []

/-- Model of `np.median`: sort ascending; for odd length take the middle
element, for even length the average of the two middle elements. -/
def npMedian (xs : List ℚ) : ℚ :=
  let s := sortQ xs
  let n := xs.length
  if n % 2 = 1 then s.getD (n / 2) 0
  else (s.getD (n / 2 - 1) 0 + s.getD (n / 2) 0) / 2

/-- Model of `np.linspace a b n`: `n` evenly spaced points from `a` to `b`
inclusive, `a + i * (b - a) / (n - 1)`. -/
def linspace (a b : ℚ) (n : ℕ) : List ℚ :=
  (List.range n).map fun i => a + (b - a) * i / ((n : ℚ) - 1)

/-- Model of numpy boolean-mask indexing `xs[m]`: keep, in order, the entries
of `xs` whose positionally corresponding mask entry is true. -/
def maskFilter {α : Type} (xs : List α) (m : List Bool) : List α :=
  (xs.zip m).filterMap fun p => if p.2 then some p.1 else none

/-- Line 43, the mask `np.logical_and(~np.isnan(time), ~np.isnan(signal))`:
true exactly at the indices where neither coordinate is NaN. -/
def nanMask (time signal : List Val) : List Bool :=
  List.zipWith (fun t s => t.isSome && s.isSome) time signal

/-- Line 43 of the source:
`time, signal = [np.array(array[np.logical_and(~np.isnan(time), ~np.isnan(signal))]) for array in [time, signal]]`.
Boolean-mask indexing keeps, in order, the entries at indices where the mask
is true; every kept entry is non-NaN by construction of the mask, so the
results are lists of rationals (the `filterMap` returns the kept entry
itself, which is a `some`).  When the two inputs differ in length the
elementwise `logical_and` or the subsequent boolean indexing fails inside
numpy before any result is computed; section 7 of the spec names this
failure `InputShapeError`. -/
def cleanArrays (time signal : List Val) : Except Err (List ℚ × List ℚ) :=
  if time.length = signal.length then
    .ok (((time.zip (nanMask time signal)).filterMap fun p => if p.2 then p.1 else none),
         ((signal.zip (nanMask time signal)).filterMap fun p => if p.2 then p.1 else none))
  else .error .InputShapeError

/-- Modelled from the spec (section 4.1), the description the preprocessor is
checked against: the subsequence of index-aligned pairs where neither
coordinate is NaN, in their original order. -/
def cleanedPairs (time signal : List Val) : List (ℚ × ℚ) :=
  (time.zip signal).filterMap fun p =>
    match p with
    | (some t, some s) => some (t, s)
    | _ => none

/-- The argument package handed to the least-squares capability: the initial
guess vector `p0` and the box bounds, in the parameter order
`[amplitude, width, location, background]` of the source.  A bound of `none`
is infinite (`np.inf` with the sign of its side). -/
structure FitSpec where
  p0 : List ℚ
  lower : List (Option ℚ)
  upper : List (Option ℚ)
  deriving DecidableEq, Repr

/-- What the least-squares capability returns: the fitted parameter vector
and the covariance matrix (a list of rows). -/
structure FitOutcome where
  params : List ℚ
  cov : List (List ℚ)
  deriving DecidableEq, Repr

/-- The bounded nonlinear least-squares capability `scipy.optimize.curve_fit`,
out of scope per section 1 of the spec and abstracted as a deterministic
function of the data and the `FitSpec`; `none` models the `RuntimeError` it
raises when it cannot converge (spec name `FitConvergenceError`). -/
abbrev CurveFit := List ℚ → List ℚ → FitSpec → Option FitOutcome

/-- The quadrature primitive `scipy.integrate.simps y x`, out of scope per
section 1 of the spec and abstracted as a deterministic function of the
sample values and sample positions. -/
abbrev Integ := List ℚ → List ℚ → ℚ

/-- Model of `np.diagonal`: entry `i` of row `i`. -/
def npDiagonal (m : List (List ℚ)) : List ℚ :=
  List.zipWith (fun i row => row.getD i 0) (List.range m.length) m

/-- Lines 26 to 33 of the source, inside `_gaussian_fit`: fill each guess
that was not supplied from the data (median of time for the arrival time,
a tenth of the time span for the width, the signal minimum for the
background), always derive the amplitude guess as the signal range, and
build the box bounds handed to `curve_fit`. -/
def fitSpecOf (time signal : List ℚ)
    (arrival_time_guess signal_width_guess background_guess : Option ℚ) : FitSpec :=
  let arrival_time_guess := arrival_time_guess.getD (npMedian time)
  let signal_width_guess := signal_width_guess.getD ((npMax time - npMin time) / 10)
  let background_guess := background_guess.getD (npMin signal)
  let amplitude_guess := npMax signal - npMin signal
  { p0 := [amplitude_guess, signal_width_guess, arrival_time_guess, background_guess],
    lower := [some 0, some (npMean (npDiff time)), some (npMin time), none],
    upper := [some (10 * (npMax signal - npMin signal)),
              some (npMax time - npMin time), some (npMax time), none] }

/-- Lines 15 to 38 of the source, the helper `_gaussian_fit`: invoke the
least-squares capability with the guess vector and bounds of `fitSpecOf`
and return the fitted parameters together with the raw diagonal of the
covariance matrix as `fit_params_SE` (line 36: no square root is taken). -/
def gaussian_fit (cf : CurveFit) (time signal : List ℚ)
    (arrival_time_guess signal_width_guess background_guess : Option ℚ) :
    Option (List ℚ × List ℚ) :=
  (cf time signal (fitSpecOf time signal arrival_time_guess signal_width_guess background_guess)).map
    fun o => (o.params, npDiagonal o.cov)

/-- Line 48 of the source, generalised to the sweep multiplier of line 67:
`np.logical_and(time > arrival_time - n_sigma*signal_width, time < arrival_time + n_sigma*signal_width)`,
with strict inequalities on both sides.  Line 48 instantiates
`n_sigma = 3.5`. -/
def roiMask (time : List ℚ) (arrival_time signal_width n_sigma : ℚ) : List Bool :=
  time.map fun t =>
    decide (arrival_time - n_sigma * signal_width < t) &&
      decide (t < arrival_time + n_sigma * signal_width)

/-- Line 71 of the source:
`np.logical_and(time < arrival_time - 3.5*signal_width, time > arrival_time - 3*3.5*signal_width)`,
the noise-estimation slice strictly to the left of the region of interest. -/
def leftMask (time : List ℚ) (arrival_time signal_width : ℚ) : List Bool :=
  time.map fun t =>
    decide (t < arrival_time - (7/2) * signal_width) &&
      decide (arrival_time - 3 * (7/2) * signal_width < t)

/-- All rational-valued intermediate results of lines 46 to 71 of the source,
named after the Python variables they model. -/
structure Core where
  time : List ℚ
  signal : List ℚ
  fit_params : List ℚ
  fit_params_SE : List ℚ
  signal_width : ℚ
  arrival_time : ℚ
  region_of_interest_indeces : List Bool
  time_of_interest : List ℚ
  signal_of_interest : List ℚ
  time_background : List ℚ
  signal_background : List ℚ
  background : ℚ
  area : ℚ
  roi_list : List (List Bool)
  areas_vary_nsigma : List ℚ
  roi_left : List Bool
  deriving DecidableEq

/-- Lines 46 to 71 of the source on already-cleaned data, one field per
Python assignment: unpack `signal_width, arrival_time = fit_params[1:3]`
(line 46); the region of interest and its complement (lines 48 to 50, where
`array[~mask]` is filtering by the negated mask); the background mean
(line 52); the background-subtracted area (line 54); the sweep of ROI masks
for multipliers `np.linspace(3.2, 4.5, 100)` with duplicate masks removed as
by `np.unique(..., axis=0)` (line 67 — `np.unique` returns the distinct rows
in sorted order, while `List.dedup` keeps first occurrences; only the
standard deviation of the per-row areas is consumed downstream, which does
not depend on the order of the rows); the per-mask areas, each subtracting
the one fixed `background` of line 52 (line 68); and the left noise slice
(line 71). -/
def coreOf (integ : Integ) (time signal fit_params fit_params_SE : List ℚ) : Core :=
  let signal_width := fit_params.getD 1 0
  let arrival_time := fit_params.getD 2 0
  let roi := roiMask time arrival_time signal_width (7/2)
  let time_of_interest := maskFilter time roi
  let signal_of_interest := maskFilter signal roi
  let time_background := maskFilter time (roi.map not)
  let signal_background := maskFilter signal (roi.map not)
  let background := npMean signal_background
  let area := integ (signal_of_interest.map fun y => y - background) time_of_interest
  let roi_list :=
    ((linspace (16/5) (9/2) 100).map fun n_sigma =>
      roiMask time arrival_time signal_width n_sigma).dedup
  let areas_vary_nsigma :=
    roi_list.map fun roi2 =>
      integ ((maskFilter signal roi2).map fun y => y - background) (maskFilter time roi2)
  let roi_left := leftMask time arrival_time signal_width
  { time := time, signal := signal, fit_params := fit_params,
    fit_params_SE := fit_params_SE,
    signal_width := signal_width, arrival_time := arrival_time,
    region_of_interest_indeces := roi,
    time_of_interest := time_of_interest, signal_of_interest := signal_of_interest,
    time_background := time_background, signal_background := signal_background,
    background := background, area := area,
    roi_list := roi_list, areas_vary_nsigma := areas_vary_nsigma,
    roi_left := roi_left }

/-- The rational core of the pipeline, lines 43 to 71 of the source: clean
the inputs, fit, then compute every rational intermediate.  The two `Except`
errors model the NaN produced by `np.mean` and `np.std` on an empty slice
(lines 52 and 72), which poisons the affected outputs; section 7 of the spec
names these conditions `InsufficientBackgroundError` and
`DegenerateNoiseRegionError`.  An empty background region forces an empty
left noise slice as well (the left slice lies outside the region of
interest), so checking the background first matches the line order of the
source. -/
def runCore (cf : CurveFit) (integ : Integ) (time0 signal0 : List Val)
    (arrival_time_guess signal_width_guess background_guess : Option ℚ) :
    Except Err Core :=
  match cleanArrays time0 signal0 with
  | .error e => .error e
  | .ok (time, signal) =>
    match gaussian_fit cf time signal arrival_time_guess signal_width_guess background_guess with
    | none => .error .FitConvergenceError
    | some (fit_params, fit_params_SE) =>
      if (coreOf integ time signal fit_params fit_params_SE).signal_background = [] then
        .error .InsufficientBackgroundError
      else if maskFilter (coreOf integ time signal fit_params fit_params_SE).signal
          (coreOf integ time signal fit_params fit_params_SE).roi_left = [] then
        .error .DegenerateNoiseRegionError
      else .ok (coreOf integ time signal fit_params fit_params_SE)

/-- Model of `np.std` (population standard deviation, numpy default
ddof = 0): the real square root of the population variance. -/
noncomputable def npStd (xs : List ℚ) : ℝ := Real.sqrt (npVar xs)

/-- Line 52 of the source, second component:
`background_SE = np.std(signal_background)/np.sqrt(np.size(signal_background))`. -/
noncomputable def background_SE (c : Core) : ℝ :=
  npStd c.signal_background / Real.sqrt (c.signal_background.length)

/-- Line 65 of the source:
`area_SE_background = simps(np.full(np.size(time_of_interest), background_SE), time_of_interest)`.
The integrand is the constant list of value `background_SE`; quadrature of
tabulated samples is linear in the sample values, so integrating that
constant list equals `background_SE` times the integral of the all-ones
list, which keeps the irrational factor outside the rational-valued
abstract integrator. -/
noncomputable def area_SE_background (integ : Integ) (c : Core) : ℝ :=
  background_SE c *
    ((integ (List.replicate c.time_of_interest.length 1) c.time_of_interest : ℚ) : ℝ)

/-- Line 69 of the source: `area_SE_n_sigma = np.std(areas_vary_nsigma)`. -/
noncomputable def area_SE_n_sigma (c : Core) : ℝ := npStd c.areas_vary_nsigma

/-- Lines 72 to 73 of the source: `est_SE_ROI = np.std(signal[roi_left])`,
then `area_SE_noiseROI = est_SE_ROI/np.sqrt(np.size(signal_of_interest))`. -/
noncomputable def area_SE_noiseROI (c : Core) : ℝ :=
  npStd (maskFilter c.signal c.roi_left) / Real.sqrt (c.signal_of_interest.length)

/-- Line 75 of the source:
`area_SE = np.linalg.norm([area_SE_background, area_SE_n_sigma, area_SE_noiseROI])`,
the Euclidean norm of the three contributions. -/
noncomputable def area_SE (integ : Integ) (c : Core) : ℝ :=
  Real.sqrt ((area_SE_background integ c) ^ 2 + (area_SE_n_sigma c) ^ 2 +
    (area_SE_noiseROI c) ^ 2)

/-- The entry point, `integrate_detector_signal` (lines 1 to 93): run the
rational core, then return the pair `(area, area_SE)`.  The `plot` flag only
controls the matplotlib rendering of lines 79 to 89, which draws from
already-computed values and contributes nothing to the returned pair, so the
model takes the flag and ignores it. -/
noncomputable def integrate_detector_signal (cf : CurveFit) (integ : Integ)
    (time signal : List Val) (plot : Bool)
    (arrival_time_guess signal_width_guess background_guess : Option ℚ) :
    Except Err (ℚ × ℝ) :=
  (runCore cf integ time signal arrival_time_guess signal_width_guess background_guess).map
    fun c => (c.area, area_SE integ c)

/-! Supporting lemmas, shared by several of the claim theorems below. -/

/-- Getting from a mapped list at an in-range index applies the function to
the entry of the original list at that index. -/
theorem getD_map_of_lt {α β : Type} (f : α → β) (l : List α) (i : ℕ) (d : β) (d0 : α)
    (h : i < l.length) : (l.map f).getD i d = f (l.getD i d0) := by
  induction l generalizing i with
  | nil => simp at h
  | cons a l ih =>
    cases i with
    | zero => rfl
    | succ n =>
      simp only [List.map_cons, List.getD_cons_succ]
      exact ih n (by simpa using h)

/-- The first component produced by the masked filtering of line 43 is the
list of first coordinates of the clean pairs. -/
theorem maskFilter_nanMask_fst (time signal : List Val) :
    ((time.zip (nanMask time signal)).filterMap fun p => if p.2 then p.1 else none) =
      (cleanedPairs time signal).map Prod.fst := by
  induction time generalizing signal with
  | nil => simp [nanMask, cleanedPairs]
  | cons a t ih =>
    cases signal with
    | nil => simp [nanMask, cleanedPairs]
    | cons b s =>
      have ihs := ih s
      simp only [nanMask, cleanedPairs] at ihs
      cases a <;> cases b <;>
        simp [nanMask, cleanedPairs, List.filterMap_cons, ihs]

/-- The second component produced by the masked filtering of line 43 is the
list of second coordinates of the clean pairs. -/
theorem maskFilter_nanMask_snd (time signal : List Val) :
    ((signal.zip (nanMask time signal)).filterMap fun p => if p.2 then p.1 else none) =
      (cleanedPairs time signal).map Prod.snd := by
  induction time generalizing signal with
  | nil => cases signal <;> simp [nanMask, cleanedPairs]
  | cons a t ih =>
    cases signal with
    | nil => simp [nanMask, cleanedPairs]
    | cons b s =>
      have ihs := ih s
      simp only [nanMask, cleanedPairs] at ihs
      cases a <;> cases b <;>
        simp [nanMask, cleanedPairs, List.filterMap_cons, ihs]

/-- Inversion of a successful run of the rational core: the cleaned arrays,
the fit output, the identification of the result with `coreOf`, and the two
nonemptiness conditions that were checked on the way. -/
theorem runCore_ok_elim {cf : CurveFit} {integ : Integ} {time0 signal0 : List Val}
    {atg swg bg : Option ℚ} {c : Core}
    (h : runCore cf integ time0 signal0 atg swg bg = .ok c) :
    ∃ time signal fit_params fit_params_SE,
      cleanArrays time0 signal0 = .ok (time, signal) ∧
      gaussian_fit cf time signal atg swg bg = some (fit_params, fit_params_SE) ∧
      c = coreOf integ time signal fit_params fit_params_SE ∧
      (coreOf integ time signal fit_params fit_params_SE).signal_background ≠ [] ∧
      maskFilter (coreOf integ time signal fit_params fit_params_SE).signal
        (coreOf integ time signal fit_params fit_params_SE).roi_left ≠ [] := by
  unfold runCore at h
  split at h
  · simp at h
  · rename_i time signal heq
    split at h
    · simp at h
    · rename_i fit_params fit_params_SE hfit
      split at h
      · simp at h
      · rename_i h1
        split at h
        · simp at h
        · rename_i h2
          obtain rfl : coreOf integ time signal fit_params fit_params_SE = c := by
            simpa using h
          exact ⟨time, signal, fit_params, fit_params_SE, heq, hfit, rfl, h1, h2⟩

/-! The claim theorems. -/

/-- C1: for every pair of input sequences whose lengths differ, the pipeline
fails with `InputShapeError`, before any computation is performed — the
result is this error for every choice of fit and quadrature collaborators,
guesses and plot flag, so no partial result depends on any of them. -/
theorem unequal_lengths_fail_input_shape (cf : CurveFit) (integ : Integ)
    (time signal : List Val) (plot : Bool) (atg swg bg : Option ℚ)
    (h : time.length ≠ signal.length) :
    integrate_detector_signal cf integ time signal plot atg swg bg =
      .error .InputShapeError := by
  simp [integrate_detector_signal, runCore, cleanArrays, h, Except.map]

/-- Witness for C1 at the concrete input `time = [0]`, `signal = []`. -/
theorem unequal_lengths_fail_input_shape_witness :
    ([some (0 : ℚ)] : List Val).length ≠ ([] : List Val).length ∧
    integrate_detector_signal (fun _ _ _ => none) (fun _ _ => 0)
        [some (0 : ℚ)] [] true none none none = .error .InputShapeError :=
  ⟨by decide,
   unequal_lengths_fail_input_shape (fun _ _ _ => none) (fun _ _ => 0)
     [some (0 : ℚ)] [] true none none none (by decide)⟩

/-- C5: for equal-length inputs, preprocessing returns exactly the
index-aligned pairs where neither coordinate is NaN, in their original order
— the two outputs are the first and second projections of the same list of
clean pairs, so they have equal length and preserve the original pairing. -/
theorem clean_returns_aligned_non_nan_pairs (time signal : List Val)
    (h : time.length = signal.length) :
    cleanArrays time signal =
      .ok ((cleanedPairs time signal).map Prod.fst,
           (cleanedPairs time signal).map Prod.snd) := by
  simp [cleanArrays, h, maskFilter_nanMask_fst, maskFilter_nanMask_snd]

/-- Witness for C5 at a concrete input holding a NaN in each coordinate. -/
theorem clean_returns_aligned_non_nan_pairs_witness :
    ([some (1 : ℚ), none, some 3] : List Val).length =
      ([some (4 : ℚ), some 5, none] : List Val).length ∧
    cleanArrays [some (1 : ℚ), none, some 3] [some (4 : ℚ), some 5, none] =
      .ok ((cleanedPairs [some (1 : ℚ), none, some 3] [some (4 : ℚ), some 5, none]).map Prod.fst,
           (cleanedPairs [some (1 : ℚ), none, some 3] [some (4 : ℚ), some 5, none]).map Prod.snd) :=
  ⟨by decide,
   clean_returns_aligned_non_nan_pairs [some (1 : ℚ), none, some 3]
     [some (4 : ℚ), some 5, none] (by decide)⟩

/-- C3: for every successful fit, the parameter uncertainty vector returned
by `gaussian_fit` is the raw diagonal of the covariance matrix returned by
the least-squares capability, with no square root applied. -/
theorem fit_uncertainty_is_raw_cov_diagonal (cf : CurveFit) (time signal : List ℚ)
    (atg swg bg : Option ℚ) (o : FitOutcome)
    (h : cf time signal (fitSpecOf time signal atg swg bg) = some o) :
    gaussian_fit cf time signal atg swg bg = some (o.params, npDiagonal o.cov) := by
  simp [gaussian_fit, h]

/-- A concrete least-squares stub for the witness of C3: it returns a fixed
parameter vector and a fixed covariance matrix with a recognisable
diagonal. -/
def cfC3 : CurveFit := fun _ _ _ =>
  some { params := [5, 6, 7, 8],
         cov := [[1, 2, 3, 4], [5, 6, 7, 8], [9, 10, 11, 12], [13, 14, 15, 16]] }

/-- Witness for C3: at the stub fitter, the reported uncertainty vector is
the raw diagonal `[1, 6, 11, 16]`, variances rather than standard
deviations. -/
theorem fit_uncertainty_is_raw_cov_diagonal_witness :
    cfC3 [0, 1] [2, 3] (fitSpecOf [0, 1] [2, 3] none none none) =
      some { params := [5, 6, 7, 8],
             cov := [[1, 2, 3, 4], [5, 6, 7, 8], [9, 10, 11, 12], [13, 14, 15, 16]] } ∧
    gaussian_fit cfC3 [0, 1] [2, 3] none none none = some ([5, 6, 7, 8], [1, 6, 11, 16]) :=
  ⟨rfl,
   fit_uncertainty_is_raw_cov_diagonal cfC3 [0, 1] [2, 3] none none none
     { params := [5, 6, 7, 8],
       cov := [[1, 2, 3, 4], [5, 6, 7, 8], [9, 10, 11, 12], [13, 14, 15, 16]] } rfl⟩

/-- C6: the fitter always invokes the least-squares capability with the
guess vector whose entries default, when not supplied, to the signal range
for the amplitude (never user-overridable), a tenth of the time span for
the width, the median of time for the arrival time and the signal minimum
for the background, and with the box bounds amplitude in
`[0, 10 * (max signal - min signal)]`, width in
`[mean of consecutive time differences, max time - min time]`, location in
`[min time, max time]`, background unbounded. -/
theorem fit_guesses_and_bounds (cf : CurveFit) (time signal : List ℚ)
    (atg swg bg : Option ℚ) :
    fitSpecOf time signal atg swg bg =
      { p0 := [npMax signal - npMin signal,
               swg.getD ((npMax time - npMin time) / 10),
               atg.getD (npMedian time),
               bg.getD (npMin signal)],
        lower := [some 0, some (npMean (npDiff time)), some (npMin time), none],
        upper := [some (10 * (npMax signal - npMin signal)),
                  some (npMax time - npMin time), some (npMax time), none] } ∧
    gaussian_fit cf time signal atg swg bg =
      (cf time signal (fitSpecOf time signal atg swg bg)).map
        fun o => (o.params, npDiagonal o.cov) :=
  ⟨rfl, rfl⟩

/-- C9: with all collaborators, inputs and guesses fixed, the returned pair
does not depend on the plot flag, and any two invocations with identical
inputs return identical results — the embedded pipeline is a pure function
of its inputs, with no hidden state or randomness. -/
theorem deterministic_and_plot_independent (cf : CurveFit) (integ : Integ)
    (time signal : List Val) (plot1 plot2 : Bool) (atg swg bg : Option ℚ) :
    integrate_detector_signal cf integ time signal plot1 atg swg bg =
      integrate_detector_signal cf integ time signal plot2 atg swg bg := rfl

/-- C4: a sample belongs to the region of interest iff its time lies
strictly within `location ± 3.5 * width` (strict inequalities on both
sides); the background region is filtered by exactly the negated mask, so at
every index of the cleaned trace exactly one of the two memberships holds —
the two subsets are disjoint and exhaustive. -/
theorem roi_strict_window_and_complement (integ : Integ)
    (time signal fp fS : List ℚ) (i : ℕ) (h : i < time.length) :
    ((coreOf integ time signal fp fS).region_of_interest_indeces.getD i false = true ↔
      ((coreOf integ time signal fp fS).arrival_time -
          (7/2) * (coreOf integ time signal fp fS).signal_width < time.getD i 0 ∧
        time.getD i 0 < (coreOf integ time signal fp fS).arrival_time +
          (7/2) * (coreOf integ time signal fp fS).signal_width)) ∧
    (coreOf integ time signal fp fS).time_background =
      maskFilter time ((coreOf integ time signal fp fS).region_of_interest_indeces.map not) ∧
    (coreOf integ time signal fp fS).signal_background =
      maskFilter signal ((coreOf integ time signal fp fS).region_of_interest_indeces.map not) ∧
    ((coreOf integ time signal fp fS).region_of_interest_indeces.map not).getD i false =
      !((coreOf integ time signal fp fS).region_of_interest_indeces.getD i false) := by
  refine ⟨?_, rfl, rfl, ?_⟩
  · show (roiMask time (fp.getD 2 0) (fp.getD 1 0) (7/2)).getD i false = true ↔
      (fp.getD 2 0 - (7/2) * fp.getD 1 0 < time.getD i 0 ∧
        time.getD i 0 < fp.getD 2 0 + (7/2) * fp.getD 1 0)
    unfold roiMask
    rw [getD_map_of_lt _ _ _ _ 0 h]
    simp
  · show ((roiMask time (fp.getD 2 0) (fp.getD 1 0) (7/2)).map not).getD i false =
      !(roiMask time (fp.getD 2 0) (fp.getD 1 0) (7/2)).getD i false
    rw [getD_map_of_lt _ _ _ _ false (by simpa [roiMask] using h)]

/-- A concrete core for the witness of C4: one sample at time 0 with fitted
width 1 and location 0. -/
def coreC4 : Core := coreOf (fun _ _ => 0) [(0 : ℚ)] [(1 : ℚ)] [0, 1, 0, 0] []

/-- Witness for C4 at the single-sample trace of `coreC4`, index 0. -/
theorem roi_strict_window_and_complement_witness :
    0 < ([(0 : ℚ)] : List ℚ).length ∧
    ((coreC4.region_of_interest_indeces.getD 0 false = true ↔
        (coreC4.arrival_time - (7/2) * coreC4.signal_width < ([(0 : ℚ)] : List ℚ).getD 0 0 ∧
          ([(0 : ℚ)] : List ℚ).getD 0 0 < coreC4.arrival_time + (7/2) * coreC4.signal_width)) ∧
      coreC4.time_background =
        maskFilter [(0 : ℚ)] (coreC4.region_of_interest_indeces.map not) ∧
      coreC4.signal_background =
        maskFilter [(1 : ℚ)] (coreC4.region_of_interest_indeces.map not) ∧
      (coreC4.region_of_interest_indeces.map not).getD 0 false =
        !(coreC4.region_of_interest_indeces.getD 0 false)) :=
  ⟨by decide,
   roi_strict_window_and_complement (fun _ _ => 0) [(0 : ℚ)] [(1 : ℚ)] [0, 1, 0, 0] [] 0
     (by decide)⟩

/-- C2: when the cleaned trace and the fit leave an empty background region
(the complement of the region of interest), the pipeline fails with
`InsufficientBackgroundError` instead of returning a numeric pair. -/
theorem empty_background_fails (cf : CurveFit) (integ : Integ)
    (time0 signal0 : List Val) (plot : Bool) (atg swg bg : Option ℚ)
    (time signal fp fS : List ℚ)
    (hcl : cleanArrays time0 signal0 = .ok (time, signal))
    (hfit : gaussian_fit cf time signal atg swg bg = some (fp, fS))
    (hbg : (coreOf integ time signal fp fS).signal_background = []) :
    integrate_detector_signal cf integ time0 signal0 plot atg swg bg =
      .error .InsufficientBackgroundError := by
  simp [integrate_detector_signal, runCore, hcl, hfit, hbg, Except.map]

/-- A concrete least-squares stub for the witness of C2: fitted width 10 and
location 1/2, so the region of interest swallows the whole trace and the
background region is empty. -/
def cfC2 : CurveFit := fun _ _ _ =>
  some { params := [1, 10, 1/2, 0],
         cov := [[0, 0, 0, 0], [0, 0, 0, 0], [0, 0, 0, 0], [0, 0, 0, 0]] }

/-- Witness for C2 at the trace `time = [0, 1]`, `signal = [0, 1]` under the
stub fitter `cfC2`. -/
theorem empty_background_fails_witness :
    cleanArrays [some (0 : ℚ), some 1] [some (0 : ℚ), some 1] = .ok ([0, 1], [0, 1]) ∧
    gaussian_fit cfC2 [0, 1] [0, 1] none none none =
      some ([1, 10, 1/2, 0], [0, 0, 0, 0]) ∧
    (coreOf (fun _ _ => 0) [0, 1] [0, 1] [1, 10, 1/2, 0] [0, 0, 0, 0]).signal_background = [] ∧
    integrate_detector_signal cfC2 (fun _ _ => 0) [some (0 : ℚ), some 1]
        [some (0 : ℚ), some 1] false none none none =
      .error .InsufficientBackgroundError :=
  ⟨rfl, rfl, by decide,
   empty_background_fails cfC2 (fun _ _ => 0) [some (0 : ℚ), some 1] [some (0 : ℚ), some 1]
     false none none none [0, 1] [0, 1] [1, 10, 1/2, 0] [0, 0, 0, 0] rfl rfl (by decide)⟩

/-- C7: the window-choice uncertainty contribution is the standard deviation
of the areas obtained by recomputing the background-subtracted integral for
the region-of-interest masks of the half-width multipliers swept linearly
from 3.2 to 4.5 in exactly 100 samples, after removing sweeps that yield an
identical membership mask. -/
theorem window_choice_contribution (cf : CurveFit) (integ : Integ)
    (time0 signal0 : List Val) (atg swg bg : Option ℚ) (c : Core)
    (h : runCore cf integ time0 signal0 atg swg bg = .ok c) :
    c.areas_vary_nsigma =
      (((linspace (16/5) (9/2) 100).map fun n_sigma =>
          roiMask c.time c.arrival_time c.signal_width n_sigma).dedup).map
        (fun m => integ ((maskFilter c.signal m).map fun y => y - c.background)
          (maskFilter c.time m)) ∧
    area_SE_n_sigma c = npStd c.areas_vary_nsigma := by
  obtain ⟨time, signal, fp, fS, hcl, hfit, rfl, h1, h2⟩ := runCore_ok_elim h
  refine ⟨?_, rfl⟩
  simp only [coreOf]

/-- C10: every recomputed area of the sensitivity sweep subtracts the single
background value estimated as the mean over the complement of the fixed
3.5-width-unit partition; the background is not re-estimated from each sweep
mask. -/
theorem sweep_uses_fixed_background (cf : CurveFit) (integ : Integ)
    (time0 signal0 : List Val) (atg swg bg : Option ℚ) (c : Core)
    (h : runCore cf integ time0 signal0 atg swg bg = .ok c) :
    c.background = npMean c.signal_background ∧
    c.signal_background = maskFilter c.signal
      ((roiMask c.time c.arrival_time c.signal_width (7/2)).map not) ∧
    c.areas_vary_nsigma = c.roi_list.map fun m =>
      integ ((maskFilter c.signal m).map fun y => y - c.background) (maskFilter c.time m) := by
  obtain ⟨time, signal, fp, fS, hcl, hfit, rfl, h1, h2⟩ := runCore_ok_elim h
  refine ⟨?_, ?_, ?_⟩ <;> simp only [coreOf]

/-- C8: the local-noise uncertainty contribution is the standard deviation
of the signal samples whose times lie strictly between
`location - 10.5 * width` and `location - 3.5 * width`, divided by the
square root of the region-of-interest sample count; and when that
left-of-ROI slice is empty the pipeline fails with
`DegenerateNoiseRegionError` (the NaN that `np.std` of the empty slice
would propagate, under the name section 7 of the spec gives it). -/
theorem local_noise_contribution (cf : CurveFit) (integ : Integ)
    (time0 signal0 : List Val) (plot : Bool) (atg swg bg : Option ℚ) :
    (∀ c : Core, runCore cf integ time0 signal0 atg swg bg = .ok c →
      area_SE_noiseROI c =
        npStd (maskFilter c.signal (c.time.map fun t =>
          decide (t < c.arrival_time - (7/2) * c.signal_width) &&
            decide (c.arrival_time - (21/2) * c.signal_width < t))) /
          Real.sqrt (c.signal_of_interest.length)) ∧
    (∀ time signal fp fS : List ℚ,
      cleanArrays time0 signal0 = .ok (time, signal) →
      gaussian_fit cf time signal atg swg bg = some (fp, fS) →
      (coreOf integ time signal fp fS).signal_background ≠ [] →
      maskFilter (coreOf integ time signal fp fS).signal
        (coreOf integ time signal fp fS).roi_left = [] →
      integrate_detector_signal cf integ time0 signal0 plot atg swg bg =
        .error .DegenerateNoiseRegionError) := by
  constructor
  · intro c h
    obtain ⟨time, signal, fp, fS, hcl, hfit, rfl, h1, h2⟩ := runCore_ok_elim h
    have h32 : (3 : ℚ) * (7/2) = 21/2 := by norm_num
    show npStd (maskFilter signal (leftMask time (fp.getD 2 0) (fp.getD 1 0))) /
        Real.sqrt _ = _
    unfold leftMask
    rw [h32]
    rfl
  · intro time signal fp fS hcl hfit h1 h2
    simp [integrate_detector_signal, runCore, hcl, hfit, h1, h2, Except.map]

/-- A concrete least-squares stub shared by the witnesses of C7, C8 and C10:
fitted amplitude 1, width 1, location 0, background 0. -/
def cfV : CurveFit := fun _ _ _ =>
  some { params := [1, 1, 0, 0],
         cov := [[0, 0, 0, 0], [0, 0, 0, 0], [0, 0, 0, 0], [0, 0, 0, 0]] }

/-- The zero quadrature stub shared by the witnesses of C7, C8 and C10. -/
def integV : Integ := fun _ _ => 0

/-- The core of the successful concrete run shared by the witnesses of C7,
C8 and C10: trace times -5, 0, 5 with fitted width 1 and location 0, so the
region of interest is {0}, the background is {-5, 5}, and the left noise
slice is {-5}. -/
def coreV : Core := coreOf integV [(-5 : ℚ), 0, 5] [(2 : ℚ), 3, 4] [1, 1, 0, 0] [0, 0, 0, 0]

set_option maxRecDepth 100000 in
/-- The shared successful concrete run used by the witnesses of C7, C8 and
C10: it passes both emptiness checks and returns `coreV`. -/
theorem runCoreV_eq :
    runCore cfV integV [some (-5 : ℚ), some 0, some 5] [some (2 : ℚ), some 3, some 4]
      none none none = .ok coreV := by decide

/-- Witness for C7 at the concrete successful run of `coreV`. -/
theorem window_choice_contribution_witness :
    runCore cfV integV [some (-5 : ℚ), some 0, some 5] [some (2 : ℚ), some 3, some 4]
        none none none = .ok coreV ∧
    (coreV.areas_vary_nsigma =
      (((linspace (16/5) (9/2) 100).map fun n_sigma =>
          roiMask coreV.time coreV.arrival_time coreV.signal_width n_sigma).dedup).map
        (fun m => integV ((maskFilter coreV.signal m).map fun y => y - coreV.background)
          (maskFilter coreV.time m)) ∧
      area_SE_n_sigma coreV = npStd coreV.areas_vary_nsigma) :=
  ⟨runCoreV_eq,
   window_choice_contribution cfV integV [some (-5 : ℚ), some 0, some 5]
     [some (2 : ℚ), some 3, some 4] none none none coreV runCoreV_eq⟩

/-- Witness for C10 at the concrete successful run of `coreV`. -/
theorem sweep_uses_fixed_background_witness :
    runCore cfV integV [some (-5 : ℚ), some 0, some 5] [some (2 : ℚ), some 3, some 4]
        none none none = .ok coreV ∧
    (coreV.background = npMean coreV.signal_background ∧
      coreV.signal_background = maskFilter coreV.signal
        ((roiMask coreV.time coreV.arrival_time coreV.signal_width (7/2)).map not) ∧
      coreV.areas_vary_nsigma = coreV.roi_list.map fun m =>
        integV ((maskFilter coreV.signal m).map fun y => y - coreV.background)
          (maskFilter coreV.time m)) :=
  ⟨runCoreV_eq,
   sweep_uses_fixed_background cfV integV [some (-5 : ℚ), some 0, some 5]
     [some (2 : ℚ), some 3, some 4] none none none coreV runCoreV_eq⟩

/-- Witness for C8: the first part at the concrete successful run of
`coreV`, whose left noise slice is nonempty; the second part at the trace
`time = [0, 5]`, whose left noise slice is empty while its background
region is not. -/
theorem local_noise_contribution_witness :
    (runCore cfV integV [some (-5 : ℚ), some 0, some 5] [some (2 : ℚ), some 3, some 4]
        none none none = .ok coreV ∧
      area_SE_noiseROI coreV =
        npStd (maskFilter coreV.signal (coreV.time.map fun t =>
          decide (t < coreV.arrival_time - (7/2) * coreV.signal_width) &&
            decide (coreV.arrival_time - (21/2) * coreV.signal_width < t))) /
          Real.sqrt (coreV.signal_of_interest.length)) ∧
    (cleanArrays [some (0 : ℚ), some 5] [some (1 : ℚ), some 0] = .ok ([0, 5], [1, 0]) ∧
      gaussian_fit cfV [0, 5] [1, 0] none none none = some ([1, 1, 0, 0], [0, 0, 0, 0]) ∧
      (coreOf integV [0, 5] [1, 0] [1, 1, 0, 0] [0, 0, 0, 0]).signal_background ≠ [] ∧
      maskFilter (coreOf integV [0, 5] [1, 0] [1, 1, 0, 0] [0, 0, 0, 0]).signal
        (coreOf integV [0, 5] [1, 0] [1, 1, 0, 0] [0, 0, 0, 0]).roi_left = [] ∧
      integrate_detector_signal cfV integV [some (0 : ℚ), some 5] [some (1 : ℚ), some 0]
        false none none none = .error .DegenerateNoiseRegionError) :=
  ⟨⟨runCoreV_eq,
    (local_noise_contribution cfV integV [some (-5 : ℚ), some 0, some 5]
        [some (2 : ℚ), some 3, some 4] false none none none).1 coreV runCoreV_eq⟩,
   ⟨by decide, by decide, by decide, by decide,
    (local_noise_contribution cfV integV [some (0 : ℚ), some 5] [some (1 : ℚ), some 0]
        false none none none).2 [0, 5] [1, 0] [1, 1, 0, 0] [0, 0, 0, 0]
      (by decide) (by decide) (by decide) (by decide)⟩⟩

end IDS
